import Mathlib

/-!
Shallow embedding of `src/src/ui/resource/Image.js` (class `ui.resource.Image`
of the timestep rendering toolkit) and proofs about its behaviour.

JS numbers are modelled as `ℚ`, surfaces live in an explicit heap (`GState`)
addressed by `Nat` ids so that reference identity and shared mutation are
visible, and fallible operations return `Except`.  `Option` models JS
`undefined` where the code distinguishes it (`failCount`, optional call
arguments).
-/

namespace Timestep

/-- The region-map value held in `this._map` (fallback `ImageMap` class,
`Image.js` lines 62-76): source rectangle, margins, url.  The `scale` field is
written by the external resource loader (`_updateImageMap`), not by
`ImageMap.init` itself, and read by `getWidth`/`getHeight`. -/
structure ImageMap where
  url : String
  x : ℚ
  y : ℚ
  width : ℚ
  height : ℚ
  marginTop : ℚ
  marginRight : ℚ
  marginBottom : ℚ
  marginLeft : ℚ
  scale : ℚ
deriving Repr, DecidableEq

/-- One surface (DOM `Image`/canvas) in the heap.  `src = ""` models the empty
`img.src` of a freshly constructed image (JS falsy); `hasCb` records whether
`img.__cb` has been attached; `isCanvas` models `instanceof HTMLCanvasElement`. -/
structure SurfaceData where
  width : ℚ
  height : ℚ
  src : String
  hasCb : Bool
  isCanvas : Bool
deriving Repr, DecidableEq

instance : Inhabited SurfaceData := ⟨⟨0, 0, "", false, false⟩⟩

/-- A fresh `new Image()`: zero dimensions, empty src, no callback attached. -/
def newSurface : SurfaceData := ⟨0, 0, "", false, false⟩

/-- Result of the base64/preload lookup `Image.get(url)`: either an
already-decoded image object or an alternate (inline-encoded) URL. -/
inductive PreloadEntry where
  | img (id : Nat)
  | b64url (u : String)
deriving Repr, DecidableEq

/-- Process-wide state: the surface heap (ids are list indices), the module
level `ImageCache` (url → surface id, newest binding first so insertion
overwrites), and the preload/base64 table behind `Image.get`. -/
structure GState where
  surfaces : List SurfaceData
  imageCache : List (String × Nat)
  preload : List (String × PreloadEntry)
deriving Repr, DecidableEq

def getSurface (g : GState) (i : Nat) : SurfaceData :=
  g.surfaces.getD i default

def setSurface (g : GState) (i : Nat) (s : SurfaceData) : GState :=
  { g with surfaces := g.surfaces.set i s }

/-- `ImageCache[url] = img` (overwrite-on-insert: lookup finds the newest
binding). -/
def cacheInsert (g : GState) (u : String) (i : Nat) : GState :=
  { g with imageCache := (u, i) :: g.imageCache }

/-- Per-instance state of one `ui.resource.Image`: its region map, the caller's
original URL, requested scale, error flag, whether `this._cb` has fired, and
the current source-surface reference (`this._srcImg`). -/
structure ImageState where
  map : ImageMap
  originalURL : String
  scale : ℚ
  isError : Bool
  cbFired : Bool
  srcImg : Option Nat
deriving Repr, DecidableEq

/-- Observable notifications emitted by an Image: the `changeBounds` pub/sub
event, and the two payload shapes of `this._cb.fire` (the `{NoImage: true}`
failure payload and the `(null, this)` success payload). -/
inductive Event where
  | changeBounds
  | cbNoImage
  | cbLoaded
deriving Repr, DecidableEq

/-- What one invocation of `imageOnLoad` (lines 41-54) does next: schedule a
`setTimeout` re-poll with the given `failCount`, or fire the surface's `__cb`
with the given error flag. -/
inductive OnLoadStep where
  | schedule (failCount : Nat)
  | fireCb (err : Bool)
deriving Repr, DecidableEq

/-- JS `failCount <= 3` where `failCount` may be `undefined`:
`undefined <= 3` converts `undefined` to `NaN`, so the comparison is `false`. -/
def jsLe3 (failCount : Option Nat) : Bool :=
  match failCount with
  | none => false
  | some n => n ≤ 3

/-- `imageOnLoad(success, evt, failCount)` (lines 41-54), called with `this`
bound to the surface whose `load`/`error` event fired.  `width` is
`this.width`; `!this.width` is width = 0.  `(failCount || 0) + 1` is the
rescheduled count.  The event listeners (lines 155-156) call this with
`failCount` undefined (`none`). -/
def imageOnLoad (success : Bool) (width : ℚ) (failCount : Option Nat) :
    OnLoadStep :=
  if success ∧ width = 0 then
    if jsLe3 failCount then OnLoadStep.schedule (failCount.getD 0 + 1)
    else OnLoadStep.fireCb false
  else
    OnLoadStep.fireCb (!success)

/-- Result of `_onLoad` (and of `_setSrcImg`): updated heap, updated image
state, emitted notifications. -/
structure OnLoadResult where
  g : GState
  st : ImageState
  evs : List Event
deriving Repr, DecidableEq

/-- Body of `_onLoad` after the stale-completion guard (lines 323-363). -/
def onLoadBody (g : GState) (st : ImageState) (err : Bool) : OnLoadResult :=
  if err then
    -- lines 323-329: error flag, fire {NoImage: true}
    ⟨g, { st with isError := true, cbFired := true }, [Event.cbNoImage]⟩
  else
    let st0 := { st with isError := false }
    let si := st0.srcImg.getD 0
    let s := getSurface g si
    if st0.scale ≠ 1 ∧ (st0.map.width ≠ -1 ∨ st0.map.height ≠ -1) then
      -- lines 337-351: requested scale & provided a width or height;
      -- infer the missing dimension from the surface aspect, then write the
      -- result back into the (possibly shared) surface itself.
      let w1 := if st0.map.width = -1
        then s.width * st0.map.height / s.height else st0.map.width
      let h1 := if st0.map.height = -1
        then s.height * w1 / s.width else st0.map.height
      let map1 := { st0.map with width := w1, height := h1, url := s.src }
      let g1 := setSurface g si { s with width := w1, height := h1 }
      ⟨g1, { st0 with map := map1, cbFired := true }, [Event.cbLoaded]⟩
    else
      -- lines 352-359: fill unresolved dimensions from the surface
      let w1 := if st0.map.width = -1 then s.width else st0.map.width
      let h1 := if st0.map.height = -1 then s.height else st0.map.height
      let map1 := { st0.map with width := w1, height := h1, url := s.src }
      ⟨g, { st0 with map := map1, cbFired := true }, [Event.cbLoaded]⟩

/-- `_onLoad(err, img)` (lines 314-363).  `img` is the surface that triggered
the callback (`none` models a falsy `img`); the guard
`if (img && img !== srcImg) return;` silently drops completions whose surface
is no longer the current `this._srcImg`. -/
def _onLoad (g : GState) (st : ImageState) (err : Bool) (img : Option Nat) :
    OnLoadResult :=
  match img with
  | some i => if st.srcImg ≠ some i then ⟨g, st, []⟩ else onLoadBody g st err
  | none => onLoadBody g st err

/-- Result of `_setSrcImg`: updated heap, updated image state, whether a fresh
decode was started (`img.src = url` on a surface with empty src), and the
notifications emitted synchronously (only the canvas fast path emits any). -/
structure SetSrcResult where
  g : GState
  st : ImageState
  started : Bool
  evs : List Event
deriving Repr, DecidableEq

/-- `_setSrcImg(img, url, forceReload)` (lines 107-171), browser path (the
`img.destroy` / `NATIVE.gl.deleteTexture` calls of the forceReload branch act
only on native textures and have no counterpart in this heap).  `img0` and
`url0` are the possibly-undefined arguments.  Completion of an asynchronous
decode is delivered separately through `_onLoad`; only the
`HTMLCanvasElement` branch completes synchronously here. -/
def _setSrcImg (g : GState) (st : ImageState) (img0 : Option Nat)
    (url0 : Option String) (forceReload : Bool) : SetSrcResult :=
  -- this._cb.reset()
  let st1 := { st with cbFired := false }
  -- if (!img && url && !forceReload && ImageCache[url]) img = ImageCache[url]
  let img1 := match img0, url0 with
    | none, some u =>
      if u ≠ "" ∧ ¬forceReload then g.imageCache.lookup u else none
    | _, _ => img0
  -- base64 cache: if (!img && !forceReload && Image.get) { ... }
  let pair := match img1 with
    | some i => (some i, url0)
    | none =>
      if ¬forceReload then
        match url0.bind (fun u => g.preload.lookup u) with
        | some (PreloadEntry.img i) => (some i, url0)
        | some (PreloadEntry.b64url u) => (none, some u)
        | none => (none, url0)
      else (none, url0)
  let img2 := pair.1
  let url2 := pair.2
  -- if (!img) img = new Image()
  let alloc : GState × Nat := match img2 with
    | some i => (g, i)
    | none => ({ g with surfaces := g.surfaces ++ [newSurface] },
               g.surfaces.length)
  let g2 := alloc.1
  let imgId := alloc.2
  -- this._srcImg = img
  let st2 := { st1 with srcImg := some imgId }
  let s := getSurface g2 imgId
  if s.isCanvas then
    -- lines 145-146: synchronous, no error
    let r := _onLoad g2 st2 false (some imgId)
    ⟨r.g, r.st, false, r.evs⟩
  else
    -- lines 153-165: attach __cb, insert into ImageCache, start the decode
    if ¬s.hasCb then
      let g3 := setSurface g2 imgId { s with hasCb := true }
      let g4 := match url2 with
        | some u => if u ≠ "" then cacheInsert g3 u imgId else g3
        | none => g3
      -- if (!img.src && url) img.src = this._map.url = url
      match url2 with
      | some u =>
        if s.src = "" ∧ u ≠ "" then
          let g5 := setSurface g4 imgId
            { (getSurface g4 imgId) with src := u }
          ⟨g5, { st2 with map := { st2.map with url := u } }, true, []⟩
        else ⟨g4, st2, false, []⟩
      | none => ⟨g4, st2, false, []⟩
    else
      -- img.__cb already attached: completion arrives via _onLoad later
      ⟨g2, st2, false, []⟩

/-- `setSource`/`setSrcImg` (lines 177-179): `_setSrcImg(srcImg)` with `url`
and `forceReload` undefined. -/
def setSource (g : GState) (st : ImageState) (srcImg : Option Nat) :
    SetSrcResult :=
  _setSrcImg g st srcImg none false

/-- Modelled from the spec: the resource-loader collaborator's
`_updateImageMap` / `resolveRegion` (spec §6), which is not part of this
repository's sources.  In the no-atlas case it initializes the Region Map with
the explicit sub-rectangle (defaults: x = 0, y = 0, width/height = the
unresolved sentinel -1), zero margins, scale 1, and keeps the URL unchanged. -/
def _updateImageMap (map : ImageMap) (url : String) (sx sy sw sh : Option ℚ) :
    ImageMap :=
  { map with
    url := url
    x := sx.getD 0
    y := sy.getD 0
    width := sw.getD (-1)
    height := sh.getD (-1)
    marginTop := 0, marginRight := 0, marginBottom := 0, marginLeft := 0
    scale := 1 }

/-- The constructor `init` (lines 89-105): build the initial state, run the
resource loader over the map, then `_setSrcImg(opts.srcImage, this._map.url,
opts.forceReload)`. -/
def imageInit (g : GState) (url : String) (scale : ℚ) (srcImage : Option Nat)
    (sx sy sw sh : Option ℚ) (forceReload : Bool) : SetSrcResult :=
  let map0 : ImageMap := ⟨url, 0, 0, -1, -1, 0, 0, 0, 0, 1⟩
  let map1 := _updateImageMap map0 url sx sy sw sh
  let st : ImageState :=
    ⟨map1, url, scale, false, false, none⟩
  _setSrcImg g st srcImage (some map1.url) forceReload

/-- `getWidth` (lines 277-281): note the whole conditional is divided by
`map.scale`. -/
def getWidth (map : ImageMap) : ℚ :=
  (if map.width = -1 then 0
   else map.width + map.marginLeft + map.marginRight) / map.scale

/-- `getHeight` (lines 283-287). -/
def getHeight (map : ImageMap) : ℚ :=
  (if map.height = -1 then 0
   else map.height + map.marginTop + map.marginBottom) / map.scale

/-- `setSourceX` (lines 240-242): mutates the map, emits nothing. -/
def setSourceX (st : ImageState) (x : ℚ) : ImageState × List Event :=
  ({ st with map := { st.map with x := x } }, [])

/-- `setSourceY` (lines 244-246). -/
def setSourceY (st : ImageState) (y : ℚ) : ImageState × List Event :=
  ({ st with map := { st.map with y := y } }, [])

/-- `setSourceWidth` (lines 248-250). -/
def setSourceWidth (st : ImageState) (w : ℚ) : ImageState × List Event :=
  ({ st with map := { st.map with width := w } }, [])

/-- `setSourceHeight` (lines 252-254). -/
def setSourceHeight (st : ImageState) (h : ℚ) : ImageState × List Event :=
  ({ st with map := { st.map with height := h } }, [])

/-- `setMarginTop` (lines 256-258). -/
def setMarginTop (st : ImageState) (n : ℚ) : ImageState × List Event :=
  ({ st with map := { st.map with marginTop := n } }, [])

/-- `setMarginRight` (lines 260-262). -/
def setMarginRight (st : ImageState) (n : ℚ) : ImageState × List Event :=
  ({ st with map := { st.map with marginRight := n } }, [])

/-- `setMarginBottom` (lines 264-266). -/
def setMarginBottom (st : ImageState) (n : ℚ) : ImageState × List Event :=
  ({ st with map := { st.map with marginBottom := n } }, [])

/-- `setMarginLeft` (lines 268-270). -/
def setMarginLeft (st : ImageState) (n : ℚ) : ImageState × List Event :=
  ({ st with map := { st.map with marginLeft := n } }, [])

/-- `setMap`/`setBounds` (lines 293-304): writes every rectangle/margin field
(`margin || 0` defaults) and emits `changeBounds`. -/
def setBounds (st : ImageState) (x y w h : ℚ) (mt mr mb ml : Option ℚ) :
    ImageState × List Event :=
  ({ st with map := { st.map with
      x := x, y := y, width := w, height := h
      marginTop := mt.getD 0, marginRight := mr.getD 0
      marginBottom := mb.getD 0, marginLeft := ml.getD 0 } },
   [Event.changeBounds])

/-- An rgba filter colour (payload of `.get()` on a filter descriptor). -/
structure Color where
  r : ℚ
  g : ℚ
  b : ℚ
  a : ℚ
deriving Repr, DecidableEq

/-- The filter descriptors a drawing context may carry (`ctx.filters`,
lines 434-439); masks reference another Image by surface id. -/
structure Filters where
  LinearAdd : Option Color
  Tint : Option Color
  Multiply : Option Color
  NegativeMask : Option Nat
  PositiveMask : Option Nat
deriving Repr, DecidableEq

/-- The five filter routines `_applyFilters` can run. -/
inductive FilterName where
  | linearAdd
  | tint
  | multiply
  | negativeMask
  | positiveMask
deriving Repr, DecidableEq

/-- The `if/else if` chain of `_applyFilters` (lines 440-451): the list of
filter routines actually run on one call (empty when no descriptor present). -/
def appliedFilters (f : Filters) : List FilterName :=
  if f.LinearAdd.isSome then [FilterName.linearAdd]
  else if f.Tint.isSome then [FilterName.tint]
  else if f.Multiply.isSome then [FilterName.multiply]
  else if f.NegativeMask.isSome then [FilterName.negativeMask]
  else if f.PositiveMask.isSome then [FilterName.positiveMask]
  else []

/-- A destination drawing context as `render` sees it: `ctx.filters` is either
absent (falsy) or a descriptor record. -/
structure Ctx where
  filters : Option Filters
deriving Repr, DecidableEq

/-- The blit `render` hands to `_renderImage` / `ctx.drawImage`
(lines 502-509), together with which filter routine (if any) substituted the
scratch surface for the source. -/
structure Blit where
  filterUsed : Option FilterName
  srcX : ℚ
  srcY : ℚ
  srcW : ℚ
  srcH : ℚ
  destX : ℚ
  destY : ℚ
  destW : ℚ
  destH : ℚ
deriving Repr, DecidableEq

/-- Lines 494-500: which filter routine runs, if any.  `isNative` is the
module-level `GLOBAL.NATIVE && !device.isNativeSimulator` (line 80); the
pipeline is bypassed on the native path and when `ctx.filters` is absent. -/
def filterChoice (isNative : Bool) (ctx : Ctx) : Option FilterName :=
  if isNative then none
  else match ctx.filters with
    | some f => (appliedFilters f).head?
    | none => none

/-- The source/destination rectangle resolution of `render`
(lines 460-492).  `args` is `arguments[1..]`, so `arguments.length` is
`args.length + 1`; `argsN` is `args.get? (N-1)`. -/
def resolveRects (map : ImageMap) (args : List ℚ) :
    (ℚ × ℚ × ℚ × ℚ) × (ℚ × ℚ × ℚ × ℚ) :=
  let a := fun n => args.get? (n - 1)
  let destX := match a 5 with | some v => v | none => (a 1).getD 0
  let destY := match a 6 with | some v => v | none => (a 2).getD 0
  let destW := match a 7 with | some v => v | none => (a 3).getD 0
  let destH := match a 8 with | some v => v | none => (a 4).getD 0
  if args.length + 1 < 9 then
    let scaleX := destW / (map.marginLeft + map.width + map.marginRight)
    let scaleY := destH / (map.marginTop + map.height + map.marginBottom)
    ((map.x, map.y, map.width, map.height),
     (destX + scaleX * map.marginLeft, destY + scaleY * map.marginTop,
      scaleX * map.width, scaleY * map.height))
  else
    (((a 1).getD 0, (a 2).getD 0, (a 3).getD 0, (a 4).getD 0),
     (destX, destY, destW, destH))

/-- `render` (lines 455-503): `none` when the early-return guard
`if (!this._cb.fired()) return;` fires (no blit attempted), otherwise the blit
passed to `_renderImage`.  When a filter routine substituted the scratch
surface (`srcImg !== this._srcImg`), the source offset resets to the origin. -/
def render (isNative : Bool) (ctx : Ctx) (st : ImageState) (args : List ℚ) :
    Option Blit :=
  if ¬st.cbFired then none
  else
    let rects := resolveRects st.map args
    let fu := filterChoice isNative ctx
    some ⟨fu,
      (if fu.isSome then 0 else rects.1.1),
      (if fu.isSome then 0 else rects.1.2.1),
      rects.1.2.2.1, rects.1.2.2.2,
      rects.2.1, rects.2.2.1, rects.2.2.2.1, rects.2.2.2.2⟩

/-- JS `v || d` on an optional numeric argument of `getImageData`
(lines 522-525): undefined and 0 both fall back to the default. -/
def jsOrQ (v : Option ℚ) (d : ℚ) : ℚ :=
  match v with
  | some q => if q = 0 then d else q
  | none => d

/-- `getImageData(x, y, width, height)` (lines 511-532): throws
`'Not supported'` without document support, `'Not loaded'` when
`!map.width || !map.height` (JS falsy, i.e. the value 0 — the -1 sentinel is
truthy), otherwise reads back the requested rectangle. -/
def getImageData (hasDocument : Bool) (st : ImageState)
    (x y w h : Option ℚ) : Except String (ℚ × ℚ × ℚ × ℚ) :=
  if ¬hasDocument then Except.error "Not supported"
  else if st.map.width = 0 ∨ st.map.height = 0 then Except.error "Not loaded"
  else Except.ok
    (jsOrQ x 0, jsOrQ y 0, jsOrQ w st.map.width, jsOrQ h st.map.height)

/-- `setImageData(data)` (line 534): an empty body — no state is read or
written for any input. -/
def setImageData (g : GState) (st : ImageState) (_data : List ℚ) :
    GState × ImageState :=
  (g, st)

/-! ## Shared concrete fixtures and helper lemmas -/

/-- Initial process state: no surfaces, empty `ImageCache`, no preloads. -/
def emptyState : GState := ⟨[], [], []⟩

/-- A 10/80/10-margin image map (the layout of spec §8's margin example),
height 20 with no vertical margins, scale 1. -/
def exampleMarginMap : ImageMap := ⟨"", 0, 0, 80, 20, 0, 10, 0, 10, 1⟩

/-- A loaded image carrying `exampleMarginMap`. -/
def exampleMarginImage : ImageState := ⟨exampleMarginMap, "", 1, false, true, some 0⟩

/-- An image whose map dimensions are still the -1 sentinel. -/
def unresolvedImage : ImageState :=
  ⟨⟨"", 0, 0, -1, -1, 0, 0, 0, 0, 1⟩, "", 1, false, true, some 0⟩

/-- A filter record with every descriptor present at once. -/
def fAllFilters : Filters :=
  ⟨some ⟨1, 0, 0, 1⟩, some ⟨0, 1, 0, 1⟩, some ⟨0, 0, 1, 1⟩, some 0, some 1⟩

lemma getD_append_length {α : Type} (l : List α) (x d : α) :
    (l ++ [x]).getD l.length d = x := by
  induction l with
  | nil => rfl
  | cons a t _ih => simp [List.getD]

lemma getElemD_set_self {α : Type} (l : List α) (i : Nat) (x d : α)
    (h : i < l.length) : (l.set i x)[i]?.getD d = x := by
  induction l generalizing i with
  | nil => simp at h
  | cons a t ih =>
    cases i with
    | zero => simp
    | succ n => simpa using ih n (by simpa using h)

lemma set_append_length {α : Type} (l : List α) (a b : α) :
    (l ++ [a]).set l.length b = l ++ [b] := by
  induction l with
  | nil => rfl
  | cons x t _ih => simp

lemma onLoadBody_srcImg (g : GState) (st : ImageState) (err : Bool) :
    (onLoadBody g st err).st.srcImg = st.srcImg := by
  unfold onLoadBody
  split
  · rfl
  · dsimp only
    split <;> rfl

lemma _onLoad_srcImg (g : GState) (st : ImageState) (err : Bool)
    (img : Option Nat) : (_onLoad g st err img).st.srcImg = st.srcImg := by
  unfold _onLoad
  cases img with
  | none => exact onLoadBody_srcImg g st err
  | some i =>
    dsimp only
    split
    · rfl
    · exact onLoadBody_srcImg g st err

/-! ## Claim theorems -/

/-- C4: `getWidth()` equals `(width + marginLeft + marginRight) / scale` and
`getHeight()` equals `(height + marginTop + marginBottom) / scale` when the
respective dimension is resolved; each returns 0 while its dimension is the
unresolved sentinel -1. -/
theorem c4_logical_size (map : ImageMap) (_hs : map.scale ≠ 0) :
    (map.width ≠ -1 →
      getWidth map = (map.width + map.marginLeft + map.marginRight) / map.scale) ∧
    (map.width = -1 → getWidth map = 0) ∧
    (map.height ≠ -1 →
      getHeight map = (map.height + map.marginTop + map.marginBottom) / map.scale) ∧
    (map.height = -1 → getHeight map = 0) := by
  refine ⟨fun h => ?_, fun h => ?_, fun h => ?_, fun h => ?_⟩ <;>
    simp [getWidth, getHeight, h]

/-- Witness for C4 at a concrete map (width 6, margins 4 and 2, scale 2;
height unresolved). -/
theorem c4_logical_size_witness :
    getWidth ⟨"x", 0, 0, 6, -1, 1, 2, 3, 4, 2⟩ = 6 ∧
    getHeight ⟨"x", 0, 0, 6, -1, 1, 2, 3, 4, 2⟩ = 0 := by
  have h := c4_logical_size ⟨"x", 0, 0, 6, -1, 1, 2, 3, 4, 2⟩ (by norm_num)
  refine ⟨?_, h.2.2.2 rfl⟩
  rw [h.1 (by norm_num)]
  norm_num

/-- C9 counterexample: `setSourceX` mutates the Region Map's rectangle but
fires no notification at all, refuting that every public rectangle/margin
mutation fires `changeBounds`. -/
theorem c9_counterexample :
    (setSourceX exampleMarginImage 5).1.map.x = 5 ∧
    (setSourceX exampleMarginImage 5).2 = [] :=
  ⟨rfl, rfl⟩

/-- C9 (amended): only `setBounds`/`setMap` fires `changeBounds`; the
individual field setters (`setSourceX/Y`, `setSourceWidth/Height`,
`setMargin*`) mutate the map silently. -/
theorem c9_bounds_notifications (st : ImageState) (v x y w h : ℚ)
    (mt mr mb ml : Option ℚ) :
    (setSourceX st v).2 = [] ∧ (setSourceY st v).2 = [] ∧
    (setSourceWidth st v).2 = [] ∧ (setSourceHeight st v).2 = [] ∧
    (setMarginTop st v).2 = [] ∧ (setMarginRight st v).2 = [] ∧
    (setMarginBottom st v).2 = [] ∧ (setMarginLeft st v).2 = [] ∧
    (setBounds st x y w h mt mr mb ml).2 = [Event.changeBounds] :=
  ⟨rfl, rfl, rfl, rfl, rfl, rfl, rfl, rfl, rfl⟩

/-- C8 counterexample: with document support and both dimensions still the -1
sentinel (unresolved), `getImageData` does NOT throw `'Not loaded'` — the
sentinel is truthy, so the falsy check `!map.width || !map.height` passes and
pixel data is returned, refuting the claimed precondition. -/
theorem c8_counterexample :
    unresolvedImage.map.width = -1 ∧ unresolvedImage.map.height = -1 ∧
    getImageData true unresolvedImage none none none none =
      Except.ok (0, 0, -1, -1) :=
  ⟨rfl, rfl, rfl⟩

/-- C8 (amended): `getImageData` throws `'Not supported'` exactly without
document support; with document support it throws `'Not loaded'` exactly when
width or height equals 0 (JS falsy) — not when they hold the -1 unresolved
sentinel — and otherwise returns pixel data without throwing. -/
theorem c8_getImageData_guards (hasDoc : Bool) (st : ImageState)
    (x y w h : Option ℚ) :
    (hasDoc = false →
      getImageData hasDoc st x y w h = Except.error "Not supported") ∧
    (hasDoc = true → (st.map.width = 0 ∨ st.map.height = 0) →
      getImageData hasDoc st x y w h = Except.error "Not loaded") ∧
    (hasDoc = true → st.map.width ≠ 0 → st.map.height ≠ 0 →
      getImageData hasDoc st x y w h =
        Except.ok (jsOrQ x 0, jsOrQ y 0, jsOrQ w st.map.width,
          jsOrQ h st.map.height)) := by
  refine ⟨fun hd => ?_, fun hd hz => ?_, fun hd hw hh => ?_⟩ <;>
    subst hd <;> simp_all [getImageData]

/-- Witness for C8 at concrete inputs: no document support, and a loaded
80×20 image with document support. -/
theorem c8_getImageData_guards_witness :
    getImageData false unresolvedImage none none none none =
      Except.error "Not supported" ∧
    getImageData true exampleMarginImage none none none none =
      Except.ok (0, 0, 80, 20) := by
  refine ⟨(c8_getImageData_guards false unresolvedImage
    none none none none).1 rfl, ?_⟩
  have h := (c8_getImageData_guards true exampleMarginImage
    none none none none).2.2 rfl (by norm_num [exampleMarginImage, exampleMarginMap])
    (by norm_num [exampleMarginImage, exampleMarginMap])
  rw [h]
  norm_num [exampleMarginImage, exampleMarginMap, jsOrQ]

/-- C7 counterexample: an Image whose load attempt errored (`isError() = true`,
the notifier fired with `{NoImage: true}`) is NOT a draw no-op — `render`'s
only guard is `this._cb.fired()`, which is true after an error, so a blit is
attempted on the destination context. -/
theorem c7_counterexample :
    (_onLoad (imageInit emptyState "a.png" 1 none none none none none false).g
        (imageInit emptyState "a.png" 1 none none none none none false).st
        true (some 0)).st.isError = true ∧
    render true ⟨none⟩
        (_onLoad (imageInit emptyState "a.png" 1 none none none none none false).g
          (imageInit emptyState "a.png" 1 none none none none none false).st
          true (some 0)).st [0, 0, 1, 1] ≠ none := by
  refine ⟨rfl, ?_⟩
  intro h
  exact Option.noConfusion h

/-- C7 (amended): a draw call is a no-op (no blit attempted) exactly while the
completion notifier has not fired — i.e. while the load attempt is still
pending.  Once the notifier has fired, including with an error payload, the
blit is attempted (and any blit failure is swallowed by `_renderImage`). -/
theorem c7_pending_render_noop (isNative : Bool) (ctx : Ctx)
    (st : ImageState) (args : List ℚ) (h : st.cbFired = false) :
    render isNative ctx st args = none := by
  simp [render, h]

/-- Witness for C7 at a concrete pending image (fresh construction, decode not
yet complete). -/
theorem c7_pending_render_noop_witness :
    render true ⟨none⟩
      (imageInit emptyState "a.png" 1 none none none none none false).st
      [0, 0, 1, 1] = none :=
  c7_pending_render_noop true ⟨none⟩
    (imageInit emptyState "a.png" 1 none none none none none false).st
    [0, 0, 1, 1] rfl

/-- C6: on the non-native path with filter descriptors present, exactly one
filter routine runs per draw, chosen by the fixed precedence
LinearAdd > Tint > Multiply > NegativeMask > PositiveMask. -/
theorem c6_filter_precedence (f : Filters) :
    ((appliedFilters f).length ≤ 1) ∧
    (f.LinearAdd.isSome = true → appliedFilters f = [FilterName.linearAdd]) ∧
    (f.LinearAdd = none → f.Tint.isSome = true →
      appliedFilters f = [FilterName.tint]) ∧
    (f.LinearAdd = none → f.Tint = none → f.Multiply.isSome = true →
      appliedFilters f = [FilterName.multiply]) ∧
    (f.LinearAdd = none → f.Tint = none → f.Multiply = none →
      f.NegativeMask.isSome = true →
      appliedFilters f = [FilterName.negativeMask]) ∧
    (f.LinearAdd = none → f.Tint = none → f.Multiply = none →
      f.NegativeMask = none → f.PositiveMask.isSome = true →
      appliedFilters f = [FilterName.positiveMask]) ∧
    ((f.LinearAdd.isSome ∨ f.Tint.isSome ∨ f.Multiply.isSome ∨
        f.NegativeMask.isSome ∨ f.PositiveMask.isSome) →
      (appliedFilters f).length = 1) ∧
    (∀ (st : ImageState) (args : List ℚ), st.cbFired = true →
      (render false ⟨some f⟩ st args).map Blit.filterUsed =
        some ((appliedFilters f).head?)) := by
  obtain ⟨la, ti, mu, nm, pm⟩ := f
  refine ⟨?_, ?_, ?_, ?_, ?_, ?_, ?_, ?_⟩
  · cases la <;> cases ti <;> cases mu <;> cases nm <;> cases pm <;>
      simp [appliedFilters]
  · intro h
    simp_all [appliedFilters]
  · intro h1 h2
    simp_all [appliedFilters]
  · intro h1 h2 h3
    simp_all [appliedFilters]
  · intro h1 h2 h3 h4
    simp_all [appliedFilters]
  · intro h1 h2 h3 h4 h5
    simp_all [appliedFilters]
  · intro h
    cases la <;> cases ti <;> cases mu <;> cases nm <;> cases pm <;>
      simp_all [appliedFilters]
  · intro st args hcb
    simp [render, hcb, filterChoice]

/-- Witness for C6 with every descriptor present at once on a loaded image:
only the additive-tint routine runs. -/
theorem c6_filter_precedence_witness :
    appliedFilters fAllFilters = [FilterName.linearAdd] ∧
    (appliedFilters fAllFilters).length = 1 ∧
    (render false ⟨some fAllFilters⟩ exampleMarginImage [0, 0, 50, 20]).map
      Blit.filterUsed = some (some FilterName.linearAdd) := by
  have h := c6_filter_precedence fAllFilters
  refine ⟨h.2.1 rfl, h.2.2.2.2.2.2.1 (Or.inl rfl), ?_⟩
  have h8 := h.2.2.2.2.2.2.2 exampleMarginImage [0, 0, 50, 20] rfl
  rw [h8]
  rfl

/-- C5: a draw call with fewer than 9 arguments splits the destination
rectangle margin-proportionally (`scaleX = destW / (marginLeft + width +
marginRight)`, final `destX = destX + scaleX*marginLeft`, final
`destW = scaleX*width`, symmetrically for Y/height); with 9 or more arguments
the explicit source rectangle is used and margins are ignored. -/
theorem c5_margin_proportional_render (st : ImageState) (dx dy dw dh : ℚ)
    (hcb : st.cbFired = true) :
    (render true ⟨none⟩ st [dx, dy, dw, dh] =
      some ⟨none, st.map.x, st.map.y, st.map.width, st.map.height,
        dx + dw / (st.map.marginLeft + st.map.width + st.map.marginRight) *
          st.map.marginLeft,
        dy + dh / (st.map.marginTop + st.map.height + st.map.marginBottom) *
          st.map.marginTop,
        dw / (st.map.marginLeft + st.map.width + st.map.marginRight) *
          st.map.width,
        dh / (st.map.marginTop + st.map.height + st.map.marginBottom) *
          st.map.height⟩) ∧
    (∀ s1 s2 s3 s4 d1 d2 d3 d4 : ℚ,
      render true ⟨none⟩ st [s1, s2, s3, s4, d1, d2, d3, d4] =
        some ⟨none, s1, s2, s3, s4, d1, d2, d3, d4⟩) := by
  constructor
  · simp [render, hcb, filterChoice, resolveRects]
  · intro s1 s2 s3 s4 d1 d2 d3 d4
    simp [render, hcb, filterChoice, resolveRects]

/-- Witness for C5: spec §8's example — marginLeft = 10, width = 80,
marginRight = 10 drawn into destW = 50 scales the left margin to 5 (destX
offset) and the content to 40; the remaining 5 is the right margin. -/
theorem c5_margin_proportional_render_witness :
    render true ⟨none⟩ exampleMarginImage [0, 0, 50, 20] =
      some ⟨none, 0, 0, 80, 20, 5, 0, 40, 20⟩ := by
  have h := (c5_margin_proportional_render exampleMarginImage 0 0 50 20 rfl).1
  rw [h]
  norm_num [exampleMarginImage, exampleMarginMap]

/-- C1 (behaviour of the code at the failing input): when the `load` event
fires while the surface width is still 0, `failCount` is undefined and the JS
comparison `undefined <= 3` is false, so no retry is ever scheduled and
`__cb.fire(false)` reports NO error; even at an exhausted retry count the code
fires `false`.  The subsequent `_onLoad(false, img)` therefore treats the
zero-width surface as a successful load: `isError()` stays false and the
success payload — not `{NoImage: true}` — fires, contradicting the claim and
the code's own comment (lines 43-45). -/
theorem c1_zero_width_no_retry_no_error :
    imageOnLoad true 0 none = OnLoadStep.fireCb false ∧
    imageOnLoad true 0 (some 4) = OnLoadStep.fireCb false ∧
    (_onLoad (imageInit emptyState "a.png" 1 none none none none none false).g
        (imageInit emptyState "a.png" 1 none none none none none false).st
        false (some 0)).st.isError = false ∧
    (_onLoad (imageInit emptyState "a.png" 1 none none none none none false).g
        (imageInit emptyState "a.png" 1 none none none none none false).st
        false (some 0)).evs = [Event.cbLoaded] := by
  refine ⟨?_, ?_, rfl, rfl⟩ <;> simp [imageOnLoad, jsLe3]

lemma setSource_srcImg (g : GState) (st : ImageState) (m : Nat) :
    ((setSource g st (some m)).st).srcImg = some m := by
  simp only [setSource, _setSrcImg]
  split
  · rw [_onLoad_srcImg]
  · split <;> rfl

/-- C2: a completion whose surface is not the Image's currently associated
surface is silently ignored — after `setSource` switches to surface `m`, the
superseded attempt's completion for surface `i ≠ m` leaves the heap and the
Image state (its Region Map included) unchanged and fires no notification. -/
theorem c2_stale_completion_ignored (g : GState) (st : ImageState)
    (i m : Nat) (err : Bool) (h : i ≠ m) :
    ((setSource g st (some m)).st).srcImg = some m ∧
    _onLoad (setSource g st (some m)).g (setSource g st (some m)).st err
        (some i) =
      ⟨(setSource g st (some m)).g, (setSource g st (some m)).st, []⟩ := by
  have hs := setSource_srcImg g st m
  refine ⟨hs, ?_⟩
  have hne : ((setSource g st (some m)).st).srcImg ≠ some i := by
    rw [hs]
    exact fun hh => (Ne.symm h) (Option.some.inj hh)
  simp only [_onLoad]
  rw [if_pos hne]

/-- Witness for C2: surface 0 supersedes the pending attempt; surface 1's
error completion is dropped. -/
theorem c2_stale_completion_ignored_witness :
    ((setSource emptyState unresolvedImage (some 0)).st).srcImg = some 0 ∧
    _onLoad (setSource emptyState unresolvedImage (some 0)).g
        (setSource emptyState unresolvedImage (some 0)).st true (some 1) =
      ⟨(setSource emptyState unresolvedImage (some 0)).g,
       (setSource emptyState unresolvedImage (some 0)).st, []⟩ :=
  c2_stale_completion_ignored emptyState unresolvedImage 1 0 true (by decide)

/-- C10: on a successful completion with scale ≠ 1 and at least one Region Map
dimension already resolved, `_onLoad` writes the (possibly aspect-inferred)
map width/height into the shared source surface's own width/height in the
heap; and `setImageData` is a no-op for every input. -/
theorem c10_shared_surface_overwrite (g : GState) (st : ImageState) (i : Nat)
    (hi : st.srcImg = some i) (hlen : i < g.surfaces.length)
    (hsc : st.scale ≠ 1)
    (hdim : st.map.width ≠ -1 ∨ st.map.height ≠ -1) :
    (getSurface (_onLoad g st false (some i)).g i).width =
      (_onLoad g st false (some i)).st.map.width ∧
    (getSurface (_onLoad g st false (some i)).g i).height =
      (_onLoad g st false (some i)).st.map.height ∧
    (_onLoad g st false (some i)).st.map.width =
      (if st.map.width = -1
       then (getSurface g i).width * st.map.height / (getSurface g i).height
       else st.map.width) ∧
    (∀ (g2 : GState) (st2 : ImageState) (d : List ℚ),
      setImageData g2 st2 d = (g2, st2)) := by
  have hne : ¬ st.srcImg ≠ some i := fun hh => hh hi
  simp only [_onLoad]
  rw [if_neg hne]
  unfold onLoadBody
  simp only [Bool.false_eq_true, if_false, hi, Option.getD_some]
  rw [if_pos ⟨hsc, hdim⟩]
  refine ⟨?_, ?_, rfl, fun g2 st2 d => rfl⟩ <;>
    simp [getSurface, setSurface, List.getD, getElemD_set_self _ _ _ _ hlen]

/-- Witness for C10: a shared 4×2 surface, a map with height 3 and unresolved
width, scale 2 — the inferred width 4·3/2 = 6 and height 3 overwrite the
surface's intrinsic 4×2. -/
theorem c10_shared_surface_overwrite_witness :
    ((getSurface (_onLoad ⟨[⟨4, 2, "s.png", true, false⟩], [("s.png", 0)], []⟩
        ⟨⟨"s.png", 0, 0, -1, 3, 0, 0, 0, 0, 1⟩, "s.png", 2, false, false,
          some 0⟩ false (some 0)).g 0).width =
      (_onLoad ⟨[⟨4, 2, "s.png", true, false⟩], [("s.png", 0)], []⟩
        ⟨⟨"s.png", 0, 0, -1, 3, 0, 0, 0, 0, 1⟩, "s.png", 2, false, false,
          some 0⟩ false (some 0)).st.map.width) ∧
    (_onLoad ⟨[⟨4, 2, "s.png", true, false⟩], [("s.png", 0)], []⟩
        ⟨⟨"s.png", 0, 0, -1, 3, 0, 0, 0, 0, 1⟩, "s.png", 2, false, false,
          some 0⟩ false (some 0)).st.map.width = 6 := by
  have h := c10_shared_surface_overwrite
    ⟨[⟨4, 2, "s.png", true, false⟩], [("s.png", 0)], []⟩
    ⟨⟨"s.png", 0, 0, -1, 3, 0, 0, 0, 0, 1⟩, "s.png", 2, false, false, some 0⟩
    0 rfl (by decide) (by norm_num) (Or.inr (by norm_num))
  refine ⟨h.1, ?_⟩
  rw [h.2.2.1]
  norm_num [getSurface, List.getD]

/-- Normal form of a construction that misses both the `ImageCache` and the
preload table: a fresh surface is allocated at index `g.surfaces.length`, its
`__cb` attached, the cache entry inserted, and the decode started
(`img.src = url`). -/
lemma imageInit_fresh_eq (g : GState) (url : String) (hurl : url ≠ "")
    (hc : g.imageCache.lookup url = none)
    (hp : g.preload.lookup url = none) :
    imageInit g url 1 none none none none none false =
      ⟨⟨g.surfaces ++ [⟨0, 0, url, true, false⟩],
        (url, g.surfaces.length) :: g.imageCache, g.preload⟩,
       ⟨⟨url, 0, 0, -1, -1, 0, 0, 0, 0, 1⟩, url, 1, false, false,
        some g.surfaces.length⟩,
       true, []⟩ := by
  simp [imageInit, _updateImageMap, _setSrcImg, getSurface, setSurface,
    cacheInsert, newSurface, hurl, hc, hp, getD_append_length,
    set_append_length]

/-- Normal form of a construction that hits the `ImageCache`: the cached
surface is reused, no allocation, no cache write, no decode. -/
lemma imageInit_cached_eq (g : GState) (url : String) (hurl : url ≠ "") :
    imageInit ⟨g.surfaces ++ [⟨0, 0, url, true, false⟩],
        (url, g.surfaces.length) :: g.imageCache, g.preload⟩ url 1 none none
        none none none false =
      ⟨⟨g.surfaces ++ [⟨0, 0, url, true, false⟩],
        (url, g.surfaces.length) :: g.imageCache, g.preload⟩,
       ⟨⟨url, 0, 0, -1, -1, 0, 0, 0, 0, 1⟩, url, 1, false, false,
        some g.surfaces.length⟩,
       false, []⟩ := by
  simp [imageInit, _updateImageMap, _setSrcImg, getSurface, setSurface,
    cacheInsert, newSurface, hurl, getD_append_length, List.lookup]

/-- C3: constructing two Images for the same URL (no forceReload, no explicit
source surface, URL neither cached nor preloaded beforehand): the first
construction inserts the fresh surface into the Surface Cache and starts the
only decode; the second finds the URL in the cache, references the identical
surface id, starts no decode, and leaves the process state untouched. -/
theorem c3_cache_dedup (g : GState) (url : String) (hurl : url ≠ "")
    (hc : g.imageCache.lookup url = none)
    (hp : g.preload.lookup url = none) :
    (imageInit g url 1 none none none none none false).g.imageCache.lookup url
      = some g.surfaces.length ∧
    (imageInit g url 1 none none none none none false).st.srcImg =
      some g.surfaces.length ∧
    (imageInit g url 1 none none none none none false).started = true ∧
    (imageInit (imageInit g url 1 none none none none none false).g url 1 none
        none none none none false).st.srcImg = some g.surfaces.length ∧
    (imageInit (imageInit g url 1 none none none none none false).g url 1 none
        none none none none false).started = false ∧
    (imageInit (imageInit g url 1 none none none none none false).g url 1 none
        none none none none false).g =
      (imageInit g url 1 none none none none none false).g ∧
    (imageInit g url 1 none none none none none false).g.surfaces.length =
      g.surfaces.length + 1 := by
  have e1 := imageInit_fresh_eq g url hurl hc hp
  have e2 := imageInit_cached_eq g url hurl
  rw [e1, e2]
  refine ⟨?_, rfl, rfl, rfl, rfl, rfl, ?_⟩
  · simp [List.lookup]
  · simp

/-- Witness for C3 at a concrete state: two constructions for `"a.png"` from
the empty process state share surface 0 and only the first starts a decode. -/
theorem c3_cache_dedup_witness :
    (imageInit emptyState "a.png" 1 none none none none none false).st.srcImg
      = some 0 ∧
    (imageInit (imageInit emptyState "a.png" 1 none none none none none
        false).g "a.png" 1 none none none none none false).st.srcImg =
      some 0 ∧
    (imageInit (imageInit emptyState "a.png" 1 none none none none none
        false).g "a.png" 1 none none none none none false).started = false := by
  have h := c3_cache_dedup emptyState "a.png" (by decide) rfl rfl
  exact ⟨h.2.1, h.2.2.2.1, h.2.2.2.2.1⟩

end Timestep
